import Mathlib

/-!
Shallow embedding of the Heizöl-Optimizer core (forecast engine,
recommendation engine, tank validation) from the JavaScript source.

Conventions of the embedding:
* Prices and configuration values are exact rationals (`ℚ`); the source
  uses IEEE doubles, whose rounding is not modelled.
* Calendar dates are absolute month indices (`Nat`): the source stores
  month-resolution ISO dates and advances them with `setMonth`, so adding
  `i` months is `date + i` and the calendar month of a date is `date % 12`.
* `JS Math.round x` is `⌊x + 1/2⌋` (round half toward positive infinity).
* Absent values (`null`/`undefined` inputs) are `Option.none`; functions
  that the source lets return `null` return `Option`.
-/

namespace Heizoel

/-- A historical price point: absolute month index and price (€/L). -/
structure PricePoint where
  date : Nat
  price : ℚ
deriving DecidableEq, Repr

/-- A forecast point, same shape as a price point. -/
structure ForecastPoint where
  date : Nat
  price : ℚ
deriving DecidableEq, Repr

/-- The forecast record built by `generateForecast`: three parallel series
plus the metadata the source stores (`basePrice`, `trend`). -/
structure Forecast where
  expected : List ForecastPoint
  bestCase : List ForecastPoint
  worstCase : List ForecastPoint
  basePrice : ℚ
  trend : ℚ
deriving DecidableEq, Repr

/-! ### CONFIG (config.js) -/

/-- `CONFIG.forecast.seasonalFactors`: monthly multiplier, month 0 = January. -/
def seasonalFactor (m : Nat) : ℚ :=
  match m % 12 with
  | 0 => 106/100
  | 1 => 104/100
  | 2 => 1
  | 3 => 98/100
  | 4 => 94/100
  | 5 => 93/100
  | 6 => 95/100
  | 7 => 97/100
  | 8 => 1
  | 9 => 102/100
  | 10 => 105/100
  | _ => 107/100

/-- `CONFIG.forecast.months`. -/
def forecastMonths : Nat := 12

/-- `CONFIG.forecast.baseUncertainty`. -/
def baseUncertainty : ℚ := 5/100

/-- `CONFIG.forecast.uncertaintyGrowthPerMonth`. -/
def uncertaintyGrowthPerMonth : ℚ := 3/100

/-- `CONFIG.thresholds.criticalLevel`. -/
def criticalLevel : ℤ := 15

/-- `CONFIG.thresholds.lowLevel`. -/
def lowLevel : ℤ := 20

/-- `CONFIG.thresholds.highPriceMultiplier`. -/
def highPriceMultiplier : ℚ := 11/10

/-- `CONFIG.strategy.emergencyFillPercent`. -/
def emergencyFillPercent : ℚ := 30

/-- JavaScript `Math.round`: round half toward positive infinity. -/
def jsRound (q : ℚ) : ℤ := ⌊q + 1/2⌋

/-! ### Forecast engine (forecast.js) -/

/-- The last 12 entries of a list, as in `historical.slice(-12)`. -/
def recent12 (historical : List PricePoint) : List PricePoint :=
  historical.drop (historical.length - 12)

/-- `sumX` accumulated by `calculateTrend` (sum of indices). -/
def sumX (l : List PricePoint) : ℚ :=
  (l.enum.map (fun p => (p.1 : ℚ))).sum

/-- `sumY` accumulated by `calculateTrend` (sum of prices). -/
def sumY (l : List PricePoint) : ℚ :=
  (l.enum.map (fun p => p.2.price)).sum

/-- `sumXY` accumulated by `calculateTrend`. -/
def sumXY (l : List PricePoint) : ℚ :=
  (l.enum.map (fun p => (p.1 : ℚ) * p.2.price)).sum

/-- `sumX2` accumulated by `calculateTrend`. -/
def sumX2 (l : List PricePoint) : ℚ :=
  (l.enum.map (fun p => (p.1 : ℚ) * (p.1 : ℚ))).sum

/-- `calculateTrend(historical)`: least-squares slope over the last 12
points; 0 for fewer than 2 points.  In `ℚ`, division by a zero
denominator yields 0, matching the `slope || 0` guard of the source. -/
def calculateTrend (historical : List PricePoint) : ℚ :=
  let recent := recent12 historical
  if recent.length < 2 then 0
  else
    let n : ℚ := recent.length
    (n * sumXY recent - sumX recent * sumY recent) /
      (n * sumX2 recent - sumX recent * sumX recent)

/-- `calculateUncertainty(monthsAhead)`. -/
def calculateUncertainty (monthsAhead : Nat) : ℚ :=
  baseUncertainty + monthsAhead * uncertaintyGrowthPerMonth

/-- One iteration of the forecast loop: the expected, best-case and
worst-case points for horizon step `i` (1-based). -/
def forecastStep (lastPrice trend : ℚ) (lastDate : Nat) (i : Nat) :
    ForecastPoint × ForecastPoint × ForecastPoint :=
  let date := lastDate + i
  let expectedPrice := lastPrice * seasonalFactor (date % 12) + trend * i
  let uncertainty := calculateUncertainty i
  let bestPrice := expectedPrice * (1 - uncertainty)
  let worstPrice := expectedPrice * (1 + uncertainty)
  (⟨date, max (1/2) expectedPrice⟩, ⟨date, max (1/2) bestPrice⟩, ⟨date, worstPrice⟩)

/-- `generateForecast(months)`: `none` when the historical series is
absent or has fewer than 12 points, otherwise the three projected series. -/
def generateForecast (priceData : Option (List PricePoint)) (months : Nat) :
    Option Forecast :=
  match priceData with
  | none => none
  | some historical =>
    if historical.length < 12 then none
    else
      match historical.getLast? with
      | none => none
      | some last =>
        let trend := calculateTrend historical
        let idxs := (List.range months).map (· + 1)
        some
          { expected := idxs.map (fun i => (forecastStep last.price trend last.date i).1)
            bestCase := idxs.map (fun i => (forecastStep last.price trend last.date i).2.1)
            worstCase := idxs.map (fun i => (forecastStep last.price trend last.date i).2.2)
            basePrice := last.price
            trend := trend }

/-- `findBestBuyingTime()`: the first point of `expected` with minimal
price; `none` when no forecast exists.  The source starts from
`expected[0]` and replaces the running best only on a strictly smaller
price.  (On a forecast whose `expected` is empty the source would fault
dereferencing `undefined`; the embedding returns `none` there, and the
theorems about this function carry a non-emptiness hypothesis.) -/
def findBestBuyingTime (forecast : Option Forecast) : Option ForecastPoint :=
  match forecast with
  | none => none
  | some fc =>
    match fc.expected with
    | [] => none
    | b :: rest =>
      some (rest.foldl (fun best item => if item.price < best.price then item else best) b)

/-- `isPriceHigh(currentPrice)`: `false` without a best buying time,
otherwise `currentPrice > bestTime.price * highPriceMultiplier`. -/
def isPriceHigh (currentPrice : ℚ) (forecast : Option Forecast) : Bool :=
  match findBestBuyingTime forecast with
  | none => false
  | some best => decide (currentPrice > best.price * highPriceMultiplier)

/-! ### Recommendation engine (recommendation.js) -/

/-- The urgency levels of `calculateUrgency`. -/
inductive Urgency where
  | critical
  | urgent
  | warning
  | normal
deriving DecidableEq, Repr

/-- The strategy names of `calculateStrategy`. -/
inductive Strategy where
  | emergencyLimited
  | emergencyFull
  | limited
  | full
  | wait
deriving DecidableEq, Repr

/-- `calculateUrgency(fillPercent)`. -/
def calculateUrgency (fillPercent : ℤ) : Urgency :=
  if fillPercent < criticalLevel then .critical
  else if fillPercent < lowLevel then .urgent
  else if fillPercent < 40 then .warning
  else .normal

/-- `calculateStrategy(fillPercent, isPriceHigh)`. -/
def calculateStrategy (fillPercent : ℤ) (priceHigh : Bool) : Strategy :=
  if fillPercent < criticalLevel then
    if priceHigh then .emergencyLimited else .emergencyFull
  else if fillPercent < lowLevel then
    if priceHigh then .limited else .full
  else .wait

/-- `calculateOrderQuantity(tankVolume, tankLevel, strategy)`.  The
limited strategies round `volume * emergencyFillPercent / 100` to one
decimal via `Math.round(x * 10) / 10`. -/
def calculateOrderQuantity (tankVolume tankLevel : ℚ) (strategy : Strategy) : ℚ :=
  match strategy with
  | .emergencyLimited | .limited =>
    (jsRound (tankVolume * emergencyFillPercent / 100 * 10) : ℚ) / 10
  | .emergencyFull | .full => tankVolume - tankLevel
  | .wait => 0

/-- The value `calculate()` returns: either the placeholder record
`getEmptyRecommendation(message)` or the computed recommendation. -/
inductive Recommendation where
  | empty (message : String)
  | result (fillPercent : ℤ) (urgency : Urgency) (strategy : Strategy)
      (orderQuantity : ℚ) (estimatedCost : ℚ) (bestTime : Option ForecastPoint)
      (currentPrice : ℚ) (priceHigh : Bool)
deriving DecidableEq, Repr

/-- Whether the recommendation is the placeholder (`empty: true`). -/
def Recommendation.isEmpty : Recommendation → Bool
  | .empty _ => true
  | _ => false

/-- The placeholder's message, when present. -/
def Recommendation.getMessage : Recommendation → Option String
  | .empty m => some m
  | _ => none

/-- The computed `fillPercent` field, when present. -/
def Recommendation.getFillPercent : Recommendation → Option ℤ
  | .result fp _ _ _ _ _ _ _ => some fp
  | _ => none

/-- The computed `urgency` field, when present. -/
def Recommendation.getUrgency : Recommendation → Option Urgency
  | .result _ u _ _ _ _ _ _ => some u
  | _ => none

/-- The computed `strategy` field, when present. -/
def Recommendation.getStrategy : Recommendation → Option Strategy
  | .result _ _ s _ _ _ _ _ => some s
  | _ => none

/-- The computed `orderQuantity` field, when present. -/
def Recommendation.getOrderQuantity : Recommendation → Option ℚ
  | .result _ _ _ oq _ _ _ _ => some oq
  | _ => none

/-- The computed `estimatedCost` field, when present. -/
def Recommendation.getEstimatedCost : Recommendation → Option ℚ
  | .result _ _ _ _ c _ _ _ => some c
  | _ => none

/-- `calculate()`.  The state reads become explicit arguments; `null`
state entries are `none`.  `!tankVolume` is also true for a stored
volume of 0, hence the extra `vol = 0` test.  The cost factor mirrors
`bestTime?.price || currentPrice`: a best-time price of 0 (falsy) would
fall back to the current price. -/
def calculate (tankVolume tankLevel : Option ℚ)
    (priceData : Option (List PricePoint)) (forecast : Option Forecast)
    (currentPrice : ℚ) : Recommendation :=
  match tankVolume, tankLevel with
  | none, _ => .empty "Bitte Tank-Daten eingeben"
  | some _, none => .empty "Bitte Tank-Daten eingeben"
  | some vol, some lvl =>
    if vol = 0 then .empty "Bitte Tank-Daten eingeben"
    else
      match priceData, forecast with
      | none, _ => .empty "Daten werden geladen..."
      | some _, none => .empty "Daten werden geladen..."
      | some _, some fc =>
        let fillPercent := jsRound (lvl / vol * 100)
        let bestTime := findBestBuyingTime (some fc)
        let priceHigh := isPriceHigh currentPrice (some fc)
        let urgency := calculateUrgency fillPercent
        let strategy := calculateStrategy fillPercent priceHigh
        let orderQuantity := calculateOrderQuantity vol lvl strategy
        let costFactor :=
          match bestTime with
          | some b => if b.price = 0 then currentPrice else b.price
          | none => currentPrice
        .result fillPercent urgency strategy orderQuantity
          (orderQuantity * costFactor) bestTime currentPrice priceHigh

/-! ### Tank validation (storage.js) -/

/-- Message for the volume rule. -/
def msgVolume : String := "Tank-Volumen muss mindestens 100 Liter sein"

/-- Message for the level rule. -/
def msgLevel : String := "Füllstand muss eine positive Zahl sein"

/-- Message for the level-vs-volume rule. -/
def msgLevelVsVolume : String := "Füllstand kann nicht größer als Tank-Volumen sein"

/-- The result of `validateTankData`. -/
structure ValidationResult where
  valid : Bool
  errors : List String
deriving DecidableEq, Repr

/-- `validateTankData(volume, level)`: the three rules are checked in
order and each violated rule pushes its message.  `!volume` is volume 0
(subsumed by `volume < 100` over `ℚ` but kept for fidelity);
`Number.isFinite(level)` always holds for a rational level. -/
def validateTankData (volume level : ℚ) : ValidationResult :=
  let errors : List String := []
  let errors := if volume = 0 ∨ volume < 100 then errors ++ [msgVolume] else errors
  let errors := if level < 0 then errors ++ [msgLevel] else errors
  let errors := if level > volume then errors ++ [msgLevelVsVolume] else errors
  ⟨errors.isEmpty, errors⟩

/-! ### Spec-side definitions used for refinement comparisons -/

/-- The ordinary least-squares slope formula of the specification,
`(n·Σxy − Σx·Σy) / (n·Σx² − (Σx)²)`, price against position index. -/
def olsSlopeSpec (l : List PricePoint) : ℚ :=
  let n : ℚ := l.length
  (n * sumXY l - sumX l * sumY l) / (n * sumX2 l - sumX l * sumX l)

/-- A 12-point series with prices `a, a + b, …, a + 11·b` on months
`0, …, 11` (a linear series with per-step increment `b`). -/
def linSeries12 (a b : ℚ) : List PricePoint :=
  (List.range 12).map (fun k => ⟨k, a + b * k⟩)

/-- A 12-point strictly decreasing series losing 0.50 €/L per month and
ending at price 0.50; used as a concrete input for the forecast engine. -/
def cexHistory : List PricePoint := linSeries12 6 (-1/2)

/-! ### Helper lemmas -/

lemma generateForecast_eq_record (hist : List PricePoint) (months : Nat)
    (fc : Forecast) (last : PricePoint)
    (h : generateForecast (some hist) months = some fc)
    (hl : hist.getLast? = some last) :
    fc = { expected := ((List.range months).map (· + 1)).map
              (fun i => (forecastStep last.price (calculateTrend hist) last.date i).1)
           bestCase := ((List.range months).map (· + 1)).map
              (fun i => (forecastStep last.price (calculateTrend hist) last.date i).2.1)
           worstCase := ((List.range months).map (· + 1)).map
              (fun i => (forecastStep last.price (calculateTrend hist) last.date i).2.2)
           basePrice := last.price
           trend := calculateTrend hist } := by
  unfold generateForecast at h
  by_cases h12 : hist.length < 12
  · simp [h12] at h
  · simp only [h12, if_false, hl] at h
    exact (Option.some.inj h).symm

lemma generateForecast_getElem (hist : List PricePoint) (months : Nat)
    (fc : Forecast) (last : PricePoint)
    (h : generateForecast (some hist) months = some fc)
    (hl : hist.getLast? = some last) (i : Nat) (hi : i < months) :
    fc.expected[i]? =
        some (forecastStep last.price (calculateTrend hist) last.date (i + 1)).1 ∧
      fc.bestCase[i]? =
        some (forecastStep last.price (calculateTrend hist) last.date (i + 1)).2.1 ∧
      fc.worstCase[i]? =
        some (forecastStep last.price (calculateTrend hist) last.date (i + 1)).2.2 := by
  rw [generateForecast_eq_record hist months fc last h hl]
  refine ⟨?_, ?_, ?_⟩ <;>
    simp [List.getElem?_map, List.getElem?_range, hi]

lemma calculateUncertainty_nonneg (i : Nat) : 0 ≤ calculateUncertainty i := by
  unfold calculateUncertainty baseUncertainty uncertaintyGrowthPerMonth
  positivity

lemma generateForecast_none_iff (hist : List PricePoint) (months : Nat) :
    generateForecast (some hist) months = none ↔ hist.length < 12 := by
  constructor
  · intro h
    by_contra h12
    unfold generateForecast at h
    rcases hl : hist.getLast? with _ | last
    · rw [List.getLast?_eq_none_iff] at hl
      subst hl
      simp at h12
    · simp [h12, hl] at h
  · intro h12
    unfold generateForecast
    simp [h12]

/-- Claim C7: `generateForecast` reports `null` exactly when the
historical series is absent or has fewer than 12 points; with 12 or
more points it returns a forecast.  The `null` is an ordinary return
value of the total function, not an exception. -/
theorem generateForecast_insufficientData :
    (∀ months, generateForecast none months = none) ∧
    (∀ (hist : List PricePoint) (months : Nat),
      generateForecast (some hist) months = none ↔ hist.length < 12) :=
  ⟨fun _ => rfl, generateForecast_none_iff⟩

/-- Witness for C7: a series of 11 points is refused. -/
theorem generateForecast_insufficientData_witness :
    generateForecast (some ((List.range 11).map (fun k => ⟨k, 1⟩))) 12 = none := by
  refine (generateForecast_insufficientData.2 _ 12).mpr ?_
  simp

/-- The forecast generated from a constant 12-point series of price 2,
used as a concrete instance for witnesses. -/
def exForecast : Forecast :=
  (generateForecast (some (linSeries12 2 0)) 12).getD ⟨[], [], [], 0, 0⟩

lemma exForecast_eq :
    generateForecast (some (linSeries12 2 0)) 12 = some exForecast := by
  unfold exForecast
  rcases hg : generateForecast (some (linSeries12 2 0)) 12 with _ | fc
  · exfalso
    have h12 := (generateForecast_none_iff _ _).mp hg
    simp [linSeries12] at h12
  · simp

lemma linSeries12_const_getLast :
    (linSeries12 2 0).getLast? = some ⟨11, 2⟩ := by
  norm_num [linSeries12, List.range_succ]

lemma calculateTrend_linSeries12_const : calculateTrend (linSeries12 2 0) = 0 := by
  norm_num [calculateTrend, recent12, sumX, sumY, sumXY, sumX2, linSeries12,
    List.range_succ, List.enum]

/-- Claim C1 (amended): for every forecast from `generateForecast` and
every index `i`, the band is ordered —
`bestCase[i].price ≤ expected[i].price ≤ worstCase[i].price` — provided
the unfloored expected value `lastPrice · seasonalFactor + slope · (i+1)`
is at least the 0.50 floor.  (Without that proviso the invariant fails:
`worstCase` is computed from the unfloored value, see the
counterexample.) -/
theorem forecast_band_ordered (hist : List PricePoint) (months : Nat)
    (fc : Forecast) (last : PricePoint)
    (h : generateForecast (some hist) months = some fc)
    (hl : hist.getLast? = some last) (i : Nat) (hi : i < months)
    (hraw : 1/2 ≤ last.price * seasonalFactor ((last.date + (i + 1)) % 12) +
      calculateTrend hist * ((i : ℚ) + 1)) :
    ∃ pB pE pW, fc.bestCase[i]? = some pB ∧ fc.expected[i]? = some pE ∧
      fc.worstCase[i]? = some pW ∧ pB.price ≤ pE.price ∧ pE.price ≤ pW.price := by
  obtain ⟨hE, hB, hW⟩ := generateForecast_getElem hist months fc last h hl i hi
  refine ⟨_, _, _, hB, hE, hW, ?_, ?_⟩ <;>
    simp only [forecastStep] <;>
    push_cast <;>
    set raw := last.price * seasonalFactor ((last.date + (i + 1)) % 12) +
      calculateTrend hist * ((i : ℚ) + 1) with hrawdef
  · have hu := calculateUncertainty_nonneg (i + 1)
    have hmax : max (1/2 : ℚ) raw = raw := max_eq_right (by linarith)
    rw [hmax]
    refine max_le (by linarith) ?_
    nlinarith
  · have hu := calculateUncertainty_nonneg (i + 1)
    have hmax : max (1/2 : ℚ) raw = raw := max_eq_right (by linarith)
    rw [hmax]
    nlinarith

/-- Witness for C1: the constant-price series, horizon index 0. -/
theorem forecast_band_ordered_witness :
    ∃ pB pE pW, exForecast.bestCase[0]? = some pB ∧ exForecast.expected[0]? = some pE ∧
      exForecast.worstCase[0]? = some pW ∧ pB.price ≤ pE.price ∧ pE.price ≤ pW.price :=
  forecast_band_ordered (linSeries12 2 0) 12 exForecast ⟨11, 2⟩ exForecast_eq
    linSeries12_const_getLast 0 (by norm_num)
    (by
      rw [calculateTrend_linSeries12_const]
      norm_num [seasonalFactor])

/-- Counterexample to C1 as stated: for the strictly declining series
`cexHistory` the first forecast point has expected price 0.50 (floored)
but worst-case price 81/2500 = 0.0324, so
`expected[0].price ≤ worstCase[0].price` fails. -/
theorem forecast_band_ordered_cex :
    ((generateForecast (some cexHistory) 12).map (fun fc =>
        ((fc.expected[0]?).map ForecastPoint.price,
          (fc.worstCase[0]?).map ForecastPoint.price))) =
      some (some (1/2), some (81/2500)) ∧ ¬ ((1 : ℚ)/2 ≤ 81/2500) := by
  constructor
  · norm_num [generateForecast, forecastStep, calculateTrend, recent12, sumX, sumY, sumXY,
      sumX2, cexHistory, linSeries12, List.enum, calculateUncertainty, baseUncertainty,
      uncertaintyGrowthPerMonth, seasonalFactor, List.range_succ]
  · norm_num

/-- Claim C2 (amended): for every forecast from `generateForecast` and
horizon index `i+1`, with `raw = lastPrice · seasonalFactor + slope · (i+1)`
the stored points are `expected[i] = max(0.50, raw)`,
`bestCase[i] = max(0.50, raw · (1 − u))` and `worstCase[i] = raw · (1 + u)`
for `u = baseUncertainty + (i+1) · uncertaintyGrowthPerMonth`: best and
worst case are computed from the unfloored `raw`, not from the floored
expected value; expected and best-case prices are never below 0.50 while
the worst case is unfloored. -/
theorem generateForecast_pointwise (hist : List PricePoint) (months : Nat)
    (fc : Forecast) (last : PricePoint)
    (h : generateForecast (some hist) months = some fc)
    (hl : hist.getLast? = some last) (i : Nat) (hi : i < months) :
    fc.expected[i]? = some ⟨last.date + (i + 1),
        max (1/2) (last.price * seasonalFactor ((last.date + (i + 1)) % 12) +
          calculateTrend hist * ((i : ℚ) + 1))⟩ ∧
      fc.bestCase[i]? = some ⟨last.date + (i + 1),
        max (1/2) ((last.price * seasonalFactor ((last.date + (i + 1)) % 12) +
            calculateTrend hist * ((i : ℚ) + 1)) *
          (1 - (baseUncertainty + ((i : ℚ) + 1) * uncertaintyGrowthPerMonth)))⟩ ∧
      fc.worstCase[i]? = some ⟨last.date + (i + 1),
        (last.price * seasonalFactor ((last.date + (i + 1)) % 12) +
            calculateTrend hist * ((i : ℚ) + 1)) *
          (1 + (baseUncertainty + ((i : ℚ) + 1) * uncertaintyGrowthPerMonth))⟩ ∧
      (∀ p, fc.expected[i]? = some p → 1/2 ≤ p.price) ∧
      (∀ p, fc.bestCase[i]? = some p → 1/2 ≤ p.price) := by
  obtain ⟨hE, hB, hW⟩ := generateForecast_getElem hist months fc last h hl i hi
  rw [hE, hB, hW]
  refine ⟨?_, ?_, ?_, ?_, ?_⟩
  · simp only [forecastStep, Option.some.injEq, ForecastPoint.mk.injEq]
    exact ⟨by trivial, by push_cast; ring_nf⟩
  · simp only [forecastStep, calculateUncertainty, Option.some.injEq, ForecastPoint.mk.injEq]
    exact ⟨by trivial, by push_cast; ring_nf⟩
  · simp only [forecastStep, calculateUncertainty, Option.some.injEq, ForecastPoint.mk.injEq]
    exact ⟨by trivial, by push_cast; ring_nf⟩
  · intro p hp
    obtain rfl := Option.some.inj hp
    simp only [forecastStep]
    exact le_max_left _ _
  · intro p hp
    obtain rfl := Option.some.inj hp
    simp only [forecastStep]
    exact le_max_left _ _

/-- Witness for C2: expected point 0 of the constant-series forecast. -/
theorem generateForecast_pointwise_witness :
    exForecast.expected[0]? = some ⟨11 + (0 + 1),
        max (1/2) ((2 : ℚ) * seasonalFactor ((11 + (0 + 1)) % 12) +
          calculateTrend (linSeries12 2 0) * ((0 : ℚ) + 1))⟩ :=
  (generateForecast_pointwise (linSeries12 2 0) 12 exForecast ⟨11, 2⟩ exForecast_eq
    linSeries12_const_getLast 0 (by norm_num)).1

/-- Counterexample to C2 as stated: for `cexHistory` the stored worst
case at index 0 is 81/2500, but the claim's formula
`expected[0].price × (1 + uncertainty[1])` (using the floored expected
value 0.50) gives 27/50. -/
theorem generateForecast_pointwise_cex :
    ((generateForecast (some cexHistory) 12).map (fun fc =>
        ((fc.expected[0]?).map ForecastPoint.price,
          (fc.worstCase[0]?).map ForecastPoint.price))) =
      some (some (1/2), some (81/2500)) ∧
    (81/2500 : ℚ) ≠ (1/2) * (1 + (baseUncertainty + 1 * uncertaintyGrowthPerMonth)) := by
  constructor
  · norm_num [generateForecast, forecastStep, calculateTrend, recent12, sumX, sumY, sumXY,
      sumX2, cexHistory, linSeries12, List.enum, calculateUncertainty, baseUncertainty,
      uncertaintyGrowthPerMonth, seasonalFactor, List.range_succ]
  · norm_num [baseUncertainty, uncertaintyGrowthPerMonth]

lemma calculateTrend_linSeries12 (a b : ℚ) : calculateTrend (linSeries12 a b) = b := by
  norm_num [calculateTrend, recent12, sumX, sumY, sumXY, sumX2, linSeries12,
    List.range_succ, List.enum]
  ring_nf

/-- Claim C3: `calculateTrend` is the ordinary least-squares slope
`(n·Σxy − Σx·Σy) / (n·Σx² − (Σx)²)` over the last 12 points, 0 when
fewer than 2 points remain or the denominator vanishes; on a 12-point
linear series with increment `b` it returns `b`, and on a constant
series it returns 0. -/
theorem calculateTrend_spec :
    (∀ hist : List PricePoint, (recent12 hist).length < 2 → calculateTrend hist = 0) ∧
    (∀ hist : List PricePoint,
      ((recent12 hist).length : ℚ) * sumX2 (recent12 hist) -
        sumX (recent12 hist) * sumX (recent12 hist) = 0 → calculateTrend hist = 0) ∧
    (∀ hist : List PricePoint, 2 ≤ (recent12 hist).length →
      calculateTrend hist = olsSlopeSpec (recent12 hist)) ∧
    (∀ a b : ℚ, 0 < b → calculateTrend (linSeries12 a b) = b) ∧
    (∀ c : ℚ, calculateTrend (linSeries12 c 0) = 0) := by
  refine ⟨?_, ?_, ?_, ?_, ?_⟩
  · intro hist h
    unfold calculateTrend
    rw [if_pos h]
  · intro hist h
    unfold calculateTrend
    by_cases h2 : (recent12 hist).length < 2
    · rw [if_pos h2]
    · rw [if_neg h2]
      simp only
      rw [h, div_zero]
  · intro hist h
    unfold calculateTrend olsSlopeSpec
    rw [if_neg (not_lt.2 h)]
  · intro a b _
    exact calculateTrend_linSeries12 a b
  · intro c
    exact calculateTrend_linSeries12 c 0

/-- Witness for C3: the empty series has zero trend; the series
`3, 5, 7, …` has trend 2; a constant series has trend 0. -/
theorem calculateTrend_spec_witness :
    calculateTrend [] = 0 ∧ calculateTrend (linSeries12 3 2) = 2 ∧
      calculateTrend (linSeries12 7 0) = 0 :=
  ⟨calculateTrend_spec.1 [] (by simp [recent12]),
    calculateTrend_spec.2.2.2.1 3 2 (by norm_num),
    calculateTrend_spec.2.2.2.2 7⟩

lemma foldl_argAux_eq (l : List ForecastPoint) (b : ForecastPoint) :
    List.foldl (List.argAux fun x y => ForecastPoint.price x < ForecastPoint.price y)
        (some b) l =
      some (l.foldl (fun best item => if item.price < best.price then item else best) b) := by
  induction l generalizing b with
  | nil => rfl
  | cons x xs ih =>
    simp only [List.foldl_cons, List.argAux]
    by_cases hx : x.price < b.price
    · rw [if_pos hx, if_pos hx, ih]
    · rw [if_neg hx, if_neg hx, ih]

lemma findBestBuyingTime_eq_argmin (fc : Forecast) :
    findBestBuyingTime (some fc) = fc.expected.argmin ForecastPoint.price := by
  cases hE : fc.expected with
  | nil => simp [findBestBuyingTime, hE, List.argmin]
  | cons e rest =>
    simp only [findBestBuyingTime, hE, List.argmin, List.foldl_cons, List.argAux]
    exact (foldl_argAux_eq rest e).symm

/-- Claim C6: `findBestBuyingTime` returns `null` without a forecast,
and on a forecast with a non-empty `expected` series it returns a point
of that series whose price is minimal; among ties it is the
earliest-occurring one (its index is least among points attaining the
minimum). -/
theorem findBestBuyingTime_spec :
    findBestBuyingTime none = none ∧
    (∀ fc : Forecast, fc.expected ≠ [] →
      ∃ b, findBestBuyingTime (some fc) = some b ∧ b ∈ fc.expected ∧
        (∀ a ∈ fc.expected, b.price ≤ a.price) ∧
        (∀ a ∈ fc.expected, a.price ≤ b.price →
          fc.expected.indexOf b ≤ fc.expected.indexOf a)) := by
  refine ⟨rfl, fun fc hne => ?_⟩
  rcases hfb : findBestBuyingTime (some fc) with _ | b
  · exfalso
    rw [findBestBuyingTime_eq_argmin] at hfb
    exact hne (List.argmin_eq_none.mp hfb)
  · have hargmin : b ∈ fc.expected.argmin ForecastPoint.price := by
      rw [Option.mem_def, ← findBestBuyingTime_eq_argmin]
      exact hfb
    refine ⟨b, rfl, List.argmin_mem hargmin, ?_, ?_⟩
    · intro a ha
      exact List.le_of_mem_argmin ha hargmin
    · intro a ha hle
      exact List.index_of_argmin hargmin ha hle

/-- Witness for C6: a three-point forecast with a tie for the minimum. -/
theorem findBestBuyingTime_spec_witness :
    ∃ b, findBestBuyingTime (some ⟨[⟨0, 2⟩, ⟨1, 1⟩, ⟨2, 1⟩], [], [], 0, 0⟩) = some b ∧
      b ∈ ([⟨0, 2⟩, ⟨1, 1⟩, ⟨2, 1⟩] : List ForecastPoint) ∧
      (∀ a ∈ ([⟨0, 2⟩, ⟨1, 1⟩, ⟨2, 1⟩] : List ForecastPoint), b.price ≤ a.price) ∧
      (∀ a ∈ ([⟨0, 2⟩, ⟨1, 1⟩, ⟨2, 1⟩] : List ForecastPoint), a.price ≤ b.price →
        ([⟨0, 2⟩, ⟨1, 1⟩, ⟨2, 1⟩] : List ForecastPoint).indexOf b ≤
          ([⟨0, 2⟩, ⟨1, 1⟩, ⟨2, 1⟩] : List ForecastPoint).indexOf a) :=
  findBestBuyingTime_spec.2 ⟨[⟨0, 2⟩, ⟨1, 1⟩, ⟨2, 1⟩], [], [], 0, 0⟩ (by simp)

/-- Claim C4: the strategy table of `calculateStrategy`, the definition
of `isPriceHigh` (false without a forecast, otherwise a strict
comparison against the best forecast price scaled by
`highPriceMultiplier`), and the fact that `calculate` selects its
strategy by that table once tank, price and forecast data are present. -/
theorem strategy_selection_spec :
    (∀ (fp : ℤ) (high : Bool), fp < criticalLevel →
      calculateStrategy fp high =
        (if high then Strategy.emergencyLimited else Strategy.emergencyFull)) ∧
    (∀ (fp : ℤ) (high : Bool), criticalLevel ≤ fp → fp < lowLevel →
      calculateStrategy fp high = (if high then Strategy.limited else Strategy.full)) ∧
    (∀ (fp : ℤ) (high : Bool), lowLevel ≤ fp → calculateStrategy fp high = Strategy.wait) ∧
    (∀ cp : ℚ, isPriceHigh cp none = false) ∧
    (∀ (cp : ℚ) (fc : Forecast) (b : ForecastPoint),
      findBestBuyingTime (some fc) = some b →
      (isPriceHigh cp (some fc) = true ↔ b.price * highPriceMultiplier < cp)) ∧
    (∀ (vol lvl : ℚ) (pd : List PricePoint) (fc : Forecast) (cp : ℚ), vol ≠ 0 →
      (calculate (some vol) (some lvl) (some pd) (some fc) cp).getStrategy =
        some (calculateStrategy (jsRound (lvl / vol * 100)) (isPriceHigh cp (some fc)))) := by
  refine ⟨?_, ?_, ?_, fun _ => rfl, ?_, ?_⟩
  · intro fp high h
    unfold calculateStrategy
    rw [if_pos h]
  · intro fp high h1 h2
    unfold calculateStrategy
    rw [if_neg (not_lt.2 h1), if_pos h2]
  · intro fp high h
    have hc : ¬ fp < criticalLevel := by
      unfold criticalLevel lowLevel at *
      omega
    have hlow : ¬ fp < lowLevel := not_lt.2 h
    unfold calculateStrategy
    rw [if_neg hc, if_neg hlow]
  · intro cp fc b hb
    unfold isPriceHigh
    rw [hb]
    simp [gt_iff_lt]
  · intro vol lvl pd fc cp hv
    simp only [calculate]
    rw [if_neg hv]
    rfl

/-- Witness for C4: the concrete rows of the spec's strategy table. -/
theorem strategy_selection_spec_witness :
    calculateStrategy 10 true =
        (if true then Strategy.emergencyLimited else Strategy.emergencyFull) ∧
      calculateStrategy 18 false = (if false then Strategy.limited else Strategy.full) ∧
      calculateStrategy 50 true = Strategy.wait ∧
      isPriceHigh 5 none = false :=
  ⟨strategy_selection_spec.1 10 true (by decide),
    strategy_selection_spec.2.1 18 false (by decide) (by decide),
    strategy_selection_spec.2.2.1 50 true (by decide),
    strategy_selection_spec.2.2.2.1 5⟩

/-- Claim C5: the order quantity is `round(volume · emergencyFillPercent
/ 100, 1 decimal)` for the limited strategies — independent of the
current level, with both example tanks of volume 1000 yielding 300 —
`volume − level` for the full strategies, 0 for `wait`; and the
estimated cost is the order quantity times the best-buy price when one
exists (its price being positive), else the current price. -/
theorem orderQuantity_cost_spec :
    (∀ vol lvl : ℚ,
      calculateOrderQuantity vol lvl .limited =
          (jsRound (vol * emergencyFillPercent / 100 * 10) : ℚ) / 10 ∧
        calculateOrderQuantity vol lvl .emergencyLimited =
          (jsRound (vol * emergencyFillPercent / 100 * 10) : ℚ) / 10) ∧
    (∀ vol lvl lvlB : ℚ,
      calculateOrderQuantity vol lvl .limited = calculateOrderQuantity vol lvlB .limited ∧
        calculateOrderQuantity vol lvl .emergencyLimited =
          calculateOrderQuantity vol lvlB .emergencyLimited) ∧
    (calculateOrderQuantity 1000 50 .limited = 300 ∧
      calculateOrderQuantity 1000 140 .emergencyLimited = 300) ∧
    (∀ vol lvl : ℚ,
      calculateOrderQuantity vol lvl .full = vol - lvl ∧
        calculateOrderQuantity vol lvl .emergencyFull = vol - lvl ∧
        calculateOrderQuantity vol lvl .wait = 0) ∧
    (∀ (vol lvl : ℚ) (pd : List PricePoint) (fc : Forecast) (cp : ℚ), vol ≠ 0 →
      (∀ p ∈ fc.expected, 0 < p.price) →
      (calculate (some vol) (some lvl) (some pd) (some fc) cp).getEstimatedCost =
        some (calculateOrderQuantity vol lvl
            (calculateStrategy (jsRound (lvl / vol * 100)) (isPriceHigh cp (some fc))) *
          ((findBestBuyingTime (some fc)).map ForecastPoint.price).getD cp)) := by
  refine ⟨fun _ _ => ⟨rfl, rfl⟩, fun _ _ _ => ⟨rfl, rfl⟩, ?_, fun _ _ => ⟨rfl, rfl, rfl⟩, ?_⟩
  · have h300 : (jsRound ((1000 : ℚ) * emergencyFillPercent / 100 * 10) : ℚ) / 10 = 300 := by
      rw [show jsRound ((1000 : ℚ) * emergencyFillPercent / 100 * 10) = 3000 by
        rw [jsRound, Int.floor_eq_iff]
        norm_num [emergencyFillPercent]]
      norm_num
    exact ⟨h300, h300⟩
  · intro vol lvl pd fc cp hv hpos
    simp only [calculate]
    rw [if_neg hv]
    rcases hfb : findBestBuyingTime (some fc) with _ | b
    · simp [Recommendation.getEstimatedCost, hfb]
    · have hb : b ∈ fc.expected := by
        apply List.argmin_mem (f := ForecastPoint.price)
        rw [Option.mem_def, ← findBestBuyingTime_eq_argmin]
        exact hfb
      have hbpos : b.price ≠ 0 := ne_of_gt (hpos b hb)
      simp [Recommendation.getEstimatedCost, hfb, hbpos]

/-- Witness for C5: computed cost on a tank of volume 1000 at level 50
with a one-point forecast of price 2 and current price 3. -/
theorem orderQuantity_cost_spec_witness :
    (calculate (some 1000) (some 50) (some []) (some ⟨[⟨0, 2⟩], [], [], 0, 0⟩) 3).getEstimatedCost =
      some (calculateOrderQuantity 1000 50
          (calculateStrategy (jsRound (50 / 1000 * 100)) (isPriceHigh 3 (some ⟨[⟨0, 2⟩], [], [], 0, 0⟩))) *
        ((findBestBuyingTime (some ⟨[⟨0, 2⟩], [], [], 0, 0⟩)).map ForecastPoint.price).getD 3) :=
  orderQuantity_cost_spec.2.2.2.2 1000 50 [] ⟨[⟨0, 2⟩], [], [], 0, 0⟩ 3 (by norm_num)
    (by
      intro p hp
      simp only [List.mem_singleton] at hp
      subst hp
      norm_num)

/-- Claim C8: with a valid tank state the recommendation's fill percent
is `round(level / volume · 100)`, always within `[0, 100]`, and the
urgency is classified by the fixed thresholds 15 / 20 / 40. -/
theorem fillPercent_urgency_spec (vol lvl : ℚ) (pd : List PricePoint) (fc : Forecast)
    (cp : ℚ) (hvol : 100 ≤ vol) (h0 : 0 ≤ lvl) (hle : lvl ≤ vol) :
    (calculate (some vol) (some lvl) (some pd) (some fc) cp).getFillPercent =
        some (jsRound (lvl / vol * 100)) ∧
      0 ≤ jsRound (lvl / vol * 100) ∧ jsRound (lvl / vol * 100) ≤ 100 ∧
      (calculate (some vol) (some lvl) (some pd) (some fc) cp).getUrgency =
        some (calculateUrgency (jsRound (lvl / vol * 100))) ∧
      (∀ fp : ℤ, fp < criticalLevel → calculateUrgency fp = .critical) ∧
      (∀ fp : ℤ, criticalLevel ≤ fp → fp < lowLevel → calculateUrgency fp = .urgent) ∧
      (∀ fp : ℤ, lowLevel ≤ fp → fp < 40 → calculateUrgency fp = .warning) ∧
      (∀ fp : ℤ, 40 ≤ fp → calculateUrgency fp = .normal) := by
  have hv : vol ≠ 0 := by intro h; rw [h] at hvol; norm_num at hvol
  have hvpos : (0 : ℚ) < vol := by linarith
  have hdiv0 : 0 ≤ lvl / vol := div_nonneg h0 (le_of_lt hvpos)
  have hdiv1 : lvl / vol ≤ 1 := (div_le_one hvpos).mpr hle
  refine ⟨?_, ?_, ?_, ?_, ?_, ?_, ?_, ?_⟩
  · simp only [calculate]
    rw [if_neg hv]
    rfl
  · rw [jsRound]
    apply Int.le_floor.mpr
    push_cast
    nlinarith
  · rw [jsRound]
    have h101 : ⌊lvl / vol * 100 + 1/2⌋ < 101 := by
      apply Int.floor_lt.mpr
      push_cast
      nlinarith
    omega
  · simp only [calculate]
    rw [if_neg hv]
    rfl
  · intro fp h
    unfold calculateUrgency
    rw [if_pos h]
  · intro fp h1 h2
    unfold calculateUrgency
    rw [if_neg (not_lt.2 h1), if_pos h2]
  · intro fp h1 h2
    have hc : ¬ fp < criticalLevel := by unfold criticalLevel lowLevel at *; omega
    unfold calculateUrgency
    rw [if_neg hc, if_neg (not_lt.2 h1), if_pos h2]
  · intro fp h
    have hc : ¬ fp < criticalLevel := by unfold criticalLevel at *; omega
    have hl2 : ¬ fp < lowLevel := by unfold lowLevel at *; omega
    unfold calculateUrgency
    rw [if_neg hc, if_neg hl2, if_neg (not_lt.2 h)]

/-- Witness for C8: tank of volume 1000 at level 180 (fill percent 18,
urgency urgent). -/
theorem fillPercent_urgency_spec_witness :
    (calculate (some 1000) (some 180) (some []) (some ⟨[], [], [], 0, 0⟩) 1).getFillPercent =
        some (jsRound (180 / 1000 * 100)) ∧
      0 ≤ jsRound ((180 : ℚ) / 1000 * 100) ∧ jsRound ((180 : ℚ) / 1000 * 100) ≤ 100 ∧
      (calculate (some 1000) (some 180) (some []) (some ⟨[], [], [], 0, 0⟩) 1).getUrgency =
        some (calculateUrgency (jsRound (180 / 1000 * 100))) ∧
      (∀ fp : ℤ, fp < criticalLevel → calculateUrgency fp = .critical) ∧
      (∀ fp : ℤ, criticalLevel ≤ fp → fp < lowLevel → calculateUrgency fp = .urgent) ∧
      (∀ fp : ℤ, lowLevel ≤ fp → fp < 40 → calculateUrgency fp = .warning) ∧
      (∀ fp : ℤ, 40 ≤ fp → calculateUrgency fp = .normal) :=
  fillPercent_urgency_spec 1000 180 [] ⟨[], [], [], 0, 0⟩ 1 (by norm_num) (by norm_num)
    (by norm_num)

/-- Claim C9: whenever the tank state, the price series or the forecast
is absent, `calculate` returns the placeholder recommendation carrying a
non-empty human-readable prompt; the function is total, so no input
crashes it. -/
theorem calculate_awaiting_input :
    (∀ (lvl : Option ℚ) (pd : Option (List PricePoint)) (fc : Option Forecast) (cp : ℚ),
      calculate none lvl pd fc cp = .empty "Bitte Tank-Daten eingeben") ∧
    (∀ (vol : ℚ) (pd : Option (List PricePoint)) (fc : Option Forecast) (cp : ℚ),
      calculate (some vol) none pd fc cp = .empty "Bitte Tank-Daten eingeben") ∧
    (∀ (vol lvl : ℚ) (fc : Option Forecast) (cp : ℚ), vol ≠ 0 →
      calculate (some vol) (some lvl) none fc cp = .empty "Daten werden geladen...") ∧
    (∀ (vol lvl : ℚ) (pd : List PricePoint) (cp : ℚ), vol ≠ 0 →
      calculate (some vol) (some lvl) (some pd) none cp = .empty "Daten werden geladen...") ∧
    (∀ (vol lvl : ℚ) (fc : Option Forecast) (cp : ℚ),
      (calculate (some vol) (some lvl) none fc cp).isEmpty = true) ∧
    (∀ (vol lvl : ℚ) (pd : List PricePoint) (cp : ℚ),
      (calculate (some vol) (some lvl) (some pd) none cp).isEmpty = true) ∧
    ("Bitte Tank-Daten eingeben" ≠ "" ∧ "Daten werden geladen..." ≠ "") := by
  refine ⟨fun _ _ _ _ => rfl, fun _ _ _ _ => rfl, ?_, ?_, ?_, ?_, by simp, by simp⟩
  · intro vol lvl fc cp hv
    simp only [calculate]
    rw [if_neg hv]
  · intro vol lvl pd cp hv
    simp only [calculate]
    rw [if_neg hv]
  · intro vol lvl fc cp
    simp only [calculate]
    by_cases hv : vol = 0
    · rw [if_pos hv]
      rfl
    · rw [if_neg hv]
      rfl
  · intro vol lvl pd cp
    simp only [calculate]
    by_cases hv : vol = 0
    · rw [if_pos hv]
      rfl
    · rw [if_neg hv]
      rfl

/-- Witness for C9: a missing price series yields the loading prompt. -/
theorem calculate_awaiting_input_witness :
    calculate (some 1000) (some 50) none none 1 = .empty "Daten werden geladen..." :=
  calculate_awaiting_input.2.2.1 1000 50 none 1 (by norm_num)

/-- Claim C10: `validateTankData` fails exactly when `volume < 100`,
`level < 0` or `level > volume`; each violated rule contributes its own
message, the rules are checked in the order volume bound, level bound,
level-vs-volume (so the first listed error is the first violated rule in
that order), and a valid input reports no errors. -/
theorem validateTankData_spec (volume level : ℚ) :
    ((validateTankData volume level).valid = true ↔
      ¬(volume < 100 ∨ level < 0 ∨ level > volume)) ∧
    ((validateTankData volume level).valid = true →
      (validateTankData volume level).errors = []) ∧
    (msgVolume ∈ (validateTankData volume level).errors ↔ volume < 100) ∧
    (msgLevel ∈ (validateTankData volume level).errors ↔ level < 0) ∧
    (msgLevelVsVolume ∈ (validateTankData volume level).errors ↔ level > volume) ∧
    (volume < 100 → (validateTankData volume level).errors.head? = some msgVolume) ∧
    (¬ volume < 100 → level < 0 →
      (validateTankData volume level).errors.head? = some msgLevel) ∧
    (¬ volume < 100 → ¬ level < 0 → level > volume →
      (validateTankData volume level).errors.head? = some msgLevelVsVolume) := by
  have hzero : (volume = 0 ∨ volume < 100) ↔ volume < 100 := by
    constructor
    · rintro (rfl | h)
      · norm_num
      · exact h
    · exact Or.inr
  unfold validateTankData
  simp only [hzero]
  by_cases h1 : volume < 100 <;> by_cases h2 : level < 0 <;> by_cases h3 : level > volume <;>
    simp [h1, h2, h3, msgVolume, msgLevel, msgLevelVsVolume]

/-- Witness for C10: volume 50 with level 200 violates the volume rule
first. -/
theorem validateTankData_spec_witness :
    (validateTankData 50 200).errors.head? = some msgVolume :=
  (validateTankData_spec 50 200).2.2.2.2.2.1 (by norm_num)

end Heizoel
